import Mathlib

/-!
Verification development for the utils3d repository.

Part 1 embeds src/wavefront_obj.py (the read_obj parser).
Part 2 embeds src/utils3d/torch_/rasterization.py (RastContext,
rasterize_vertex_attr, warp_image_by_depth); the external nvdiffrast calls
and the helper modules (transforms, utils, mesh) are supplied as opaque
function parameters, since only their call sites live in this repository
subset.

Tensors are embedded as total functions from indices to rationals, and
fallible Python code as Except-valued functions.
-/

/-! ## Wavefront OBJ parser, src/wavefront_obj.py -/

/-- Helper for whitespace tokenization: walk the characters, accumulating
the current (reversed) token. -/
def tokensAux : List Char → List Char → List String
  | [], acc => if acc.isEmpty then [] else [String.mk acc.reverse]
  | c :: rest, acc =>
    if c.isWhitespace then
      if acc.isEmpty then tokensAux rest []
      else String.mk acc.reverse :: tokensAux rest []
    else tokensAux rest (c :: acc)

/-- Line 47: line.strip().split(), the maximal whitespace-free tokens of the
line in order (stripping first changes nothing, since split() already drops
leading and trailing whitespace). -/
def pyTokens (line : String) : List String := tokensAux line.data []

/-- Python str.split(sep) with a one-character separator, on the character
list: splits at every occurrence of sep and keeps empty pieces, so the
result always has one piece more than there are separators. -/
def splitOnChar (sep : Char) : List Char → List (List Char)
  | [] => [[]]
  | c :: rest =>
    let r := splitOnChar sep rest
    if c = sep then [] :: r
    else
      match r with
      | [] => [[c]]
      | h :: t => (c :: h) :: t

/-- Value of a digit string, most significant first. -/
def digitsVal (cs : List Char) : Nat :=
  cs.foldl (fun a c => a * 10 + (c.toNat - 48)) 0

/-- A non-empty all-digit character list parsed to a natural number. -/
def decDigits (cs : List Char) : Option Nat :=
  if cs ≠ [] ∧ cs.all Char.isDigit then some (digitsVal cs) else none

/-- Python int(str) on plain signed integer literals; none models
ValueError. -/
def pyInt (s : String) : Option Int :=
  match s.data with
  | '-' :: r => (decDigits r).map (fun n => -(n : Int))
  | '+' :: r => (decDigits r).map (fun n => (n : Int))
  | r => (decDigits r).map (fun n => (n : Int))

/-- Mantissa of a Python float literal: digits with an optional decimal
point, at least one digit present. -/
def parseUnsignedMantissa (cs : List Char) : Option ℚ :=
  match splitOnChar '.' cs with
  | [ip] => (decDigits ip).map (fun n => (n : ℚ))
  | [ip, fp] =>
    if ip = [] ∧ fp = [] then none
    else if ip.all Char.isDigit ∧ fp.all Char.isDigit then
      some ((digitsVal ip : ℚ) + (digitsVal fp : ℚ) / ((10 : ℚ) ^ fp.length))
    else none
  | _ => none

/-- Python float(str) on finite decimal literals (optional sign, optional
decimal point, optional exponent); the error models ValueError. -/
def pyFloat (s : String) : Except String ℚ :=
  let cs := s.data.map (fun c => if c = 'E' then 'e' else c)
  let sgCs : Bool × List Char :=
    match cs with
    | '-' :: r => (true, r)
    | '+' :: r => (false, r)
    | r => (false, r)
  let q? : Option ℚ :=
    match splitOnChar 'e' sgCs.2 with
    | [m] => (parseUnsignedMantissa m).map (fun v => if sgCs.1 then -v else v)
    | [m, e] =>
      match parseUnsignedMantissa m with
      | none => none
      | some v =>
        let esgCs : Bool × List Char :=
          match e with
          | '-' :: r => (true, r)
          | '+' :: r => (false, r)
          | r => (false, r)
        (decDigits esgCs.2).map (fun en =>
          (if sgCs.1 then -v else v) *
            (10 : ℚ) ^ (if esgCs.1 then -(en : Int) else (en : Int)))
    | _ => none
  match q? with
  | some q => Except.ok q
  | none => Except.error ("could not convert string to float: " ++ s)

/-- Line 44: pad0 = lambda l: l + [0] * (3 - len(l)). -/
def pad0 (l : List Int) : List Int :=
  l ++ List.replicate (3 - l.length) 0

/-- Line 61, inner comprehension element: int(i) if i else 0, where a
non-numeric non-empty component raises ValueError. -/
def parseIndex (s : String) : Except String Int :=
  if s = "" then Except.ok 0
  else
    match pyInt s with
    | some n => Except.ok n
    | none => Except.error ("invalid literal for int: " ++ s)

/-- Line 61: pad0([int(i) if i else 0 for i in e.split(sep)]) with sep the
slash character. -/
def parseCorner (s : String) : Except String (List Int) :=
  match ((splitOnChar '/' s.data).map String.mk).mapM parseIndex with
  | Except.ok ks => Except.ok (pad0 ks)
  | Except.error e => Except.error e

/-- Line 73: sq[0][0] equals the given character; tokens are never empty,
so the first character exists. -/
def firstCharIs (c : Char) (s : String) : Bool :=
  match s.data with
  | [] => false
  | c0 :: _ => c0 = c

/-- An o/s/usemtl record: {name: ..., f: len(f)}. -/
structure NamedRef where
  name : String
  fIdx : Nat
deriving DecidableEq

/-- The dictionary built by read_obj (lines 34-42 and 79-88). -/
structure ObjData where
  mtllib : List String
  v : List (List ℚ)
  vt : List (List ℚ)
  vn : List (List ℚ)
  vp : List (List ℚ)
  f : List (List (List Int))
  o : List NamedRef
  s : List NamedRef
  usemtl : List NamedRef
deriving DecidableEq

/-- What one loop iteration (lines 46-77) does to the accumulated lists. -/
inductive LineAction where
  | addMtllib (name : String)
  | addV (xs : List ℚ)
  | addVt (xs : List ℚ)
  | addVn (xs : List ℚ)
  | addVp (xs : List ℚ)
  | addF (corners : List (List Int))
  | addUsemtl (name : String)
  | addO (name : String)
  | addS (name : String)
  | skip
deriving DecidableEq

/-- Parse one line of the file into its action, mirroring the elif chain of
lines 46-77.  The empty token list case models the IndexError raised by
sq[0] on a blank or whitespace-only line; failed asserts and unknown
keywords become errors. -/
def parseLine (ignoreUnknown : Bool) (line : String) : Except String LineAction :=
  let sq := pyTokens line
  match sq with
  | [] => Except.error "IndexError: list index out of range"
  | s0 :: rest =>
    if s0 = "v" then
      if 4 ≤ rest.length + 1 ∧ rest.length + 1 ≤ 5 then
        (rest.mapM pyFloat).map LineAction.addV
      else Except.error "AssertionError"
    else if s0 = "vt" then
      if 2 ≤ rest.length + 1 ∧ rest.length + 1 ≤ 4 then
        (rest.mapM pyFloat).map LineAction.addVt
      else Except.error "AssertionError"
    else if s0 = "vn" then
      if rest.length + 1 = 4 then
        (rest.mapM pyFloat).map LineAction.addVn
      else Except.error "AssertionError"
    else if s0 = "vp" then
      if 2 ≤ rest.length + 1 ∧ rest.length + 1 ≤ 4 then
        (rest.mapM pyFloat).map LineAction.addVp
      else Except.error "AssertionError"
    else if s0 = "f" then
      (rest.mapM parseCorner).map LineAction.addF
    else if s0 = "usemtl" then
      match rest with
      | [n] => Except.ok (LineAction.addUsemtl n)
      | _ => Except.error "AssertionError"
    else if s0 = "o" then
      match rest with
      | [n] => Except.ok (LineAction.addO n)
      | _ => Except.error "AssertionError"
    else if s0 = "s" then
      match rest with
      | n :: _ => Except.ok (LineAction.addS n)
      | [] => Except.error "IndexError: list index out of range"
    else if s0 = "mtllib" then
      match rest with
      | [n] => Except.ok (LineAction.addMtllib n)
      | _ => Except.error "AssertionError"
    else if firstCharIs '#' s0 then Except.ok LineAction.skip
    else if ignoreUnknown then Except.ok LineAction.skip
    else Except.error ("Unknown keyword " ++ s0)

/-- Apply an action to the accumulated state: the append statements of
lines 50-72. -/
def applyAction (st : ObjData) : LineAction → ObjData
  | LineAction.addMtllib n => { st with mtllib := st.mtllib ++ [n] }
  | LineAction.addV xs => { st with v := st.v ++ [xs] }
  | LineAction.addVt xs => { st with vt := st.vt ++ [xs] }
  | LineAction.addVn xs => { st with vn := st.vn ++ [xs] }
  | LineAction.addVp xs => { st with vp := st.vp ++ [xs] }
  | LineAction.addF cs => { st with f := st.f ++ [cs] }
  | LineAction.addUsemtl n => { st with usemtl := st.usemtl ++ [⟨n, st.f.length⟩] }
  | LineAction.addO n => { st with o := st.o ++ [⟨n, st.f.length⟩] }
  | LineAction.addS n => { st with s := st.s ++ [⟨n, st.f.length⟩] }
  | LineAction.skip => st

/-- One iteration of the for loop of lines 46-77. -/
def readObjLine (ignoreUnknown : Bool) (st : ObjData) (line : String) :
    Except String ObjData :=
  match parseLine ignoreUnknown line with
  | Except.ok a => Except.ok (applyAction st a)
  | Except.error e => Except.error e

/-- The initial empty lists of lines 34-42. -/
def emptyObj : ObjData := ⟨[], [], [], [], [], [], [], [], []⟩

/-- The for loop of lines 46-77, processing lines in order; any raised
exception aborts the call. -/
def readObjGo (ignoreUnknown : Bool) : ObjData → List String → Except String ObjData
  | st, [] => Except.ok st
  | st, l :: ls =>
    match readObjLine ignoreUnknown st l with
    | Except.ok st1 => readObjGo ignoreUnknown st1 ls
    | Except.error e => Except.error e

/-- read_obj on the list of lines of the file (the file reading itself,
lines 29-33, is input-output and is modelled by passing the lines). -/
def readObj (ignoreUnknown : Bool) (lines : List String) : Except String ObjData :=
  readObjGo ignoreUnknown emptyObj lines

/-- The v rows contributed by one line (empty unless the line is a v
directive that parses). -/
def vDelta (ignoreUnknown : Bool) (line : String) : List (List ℚ) :=
  match parseLine ignoreUnknown line with
  | Except.ok (LineAction.addV xs) => [xs]
  | _ => []

/-- The face rows contributed by one line (empty unless the line is an f
directive that parses). -/
def fDelta (ignoreUnknown : Bool) (line : String) : List (List (List Int)) :=
  match parseLine ignoreUnknown line with
  | Except.ok (LineAction.addF cs) => [cs]
  | _ => []

theorem readObjLine_append (b : Bool) (st st1 : ObjData) (line : String)
    (h : readObjLine b st line = Except.ok st1) :
    st1.v = st.v ++ vDelta b line ∧ st1.f = st.f ++ fDelta b line := by
  cases hp : parseLine b line with
  | error e => simp [readObjLine, hp] at h
  | ok a =>
    simp only [readObjLine, hp] at h
    injection h with h
    subst h
    cases a <;> simp [applyAction, vDelta, fDelta, hp]

theorem readObjGo_v_f (b : Bool) (lines : List String) :
    ∀ (st res : ObjData), readObjGo b st lines = Except.ok res →
      res.v = st.v ++ (lines.map (vDelta b)).flatten ∧
      res.f = st.f ++ (lines.map (fDelta b)).flatten := by
  induction lines with
  | nil =>
    intro st res h
    simp only [readObjGo] at h
    injection h with h
    subst h
    simp
  | cons l ls ih =>
    intro st res h
    cases hs : readObjLine b st l with
    | error e => simp [readObjGo, hs] at h
    | ok st1 =>
      simp only [readObjGo, hs] at h
      obtain ⟨hv, hf⟩ := ih st1 res h
      obtain ⟨hv1, hf1⟩ := readObjLine_append b st st1 l hs
      constructor
      · rw [hv, hv1]; simp
      · rw [hf, hf1]; simp

/-- C7: read_obj parses each face corner written as i, i/j, or i/j/k into a
triple of integer indices, padded with 0 for missing components and kept as
written; and the returned v and f lists are the per-line contributions
concatenated in file order. -/
theorem readObj_corner_triples_and_order :
    (∀ (s : String) (parts : List String) (ks : List Int),
        (splitOnChar '/' s.data).map String.mk = parts →
        parts.mapM parseIndex = Except.ok ks →
        ks.length ≤ 3 →
        parseCorner s = Except.ok (ks ++ List.replicate (3 - ks.length) 0) ∧
        (ks ++ List.replicate (3 - ks.length) 0).length = 3 ∧
        (ks ++ List.replicate (3 - ks.length) 0).take ks.length = ks) ∧
    (∀ (b : Bool) (lines : List String) (res : ObjData),
        readObj b lines = Except.ok res →
        res.v = (lines.map (vDelta b)).flatten ∧
        res.f = (lines.map (fDelta b)).flatten) := by
  constructor
  · intro s parts ks hsplit hmap hlen
    refine ⟨?_, ?_, ?_⟩
    · unfold parseCorner
      rw [hsplit, hmap]
      simp [pad0]
    · simp only [List.length_append, List.length_replicate]
      omega
    · simp [List.take_left]
  · intro b lines res h
    have hgo := readObjGo_v_f b lines emptyObj res h
    simpa [emptyObj] using hgo

/-- Witness for C7 at a concrete corner and a concrete two-line file. -/
theorem readObj_corner_triples_and_order_witness :
    parseCorner "2/3" = Except.ok ([2, 3] ++ List.replicate 1 0) ∧
    (⟨[], [[1, 2, 3]], [], [], [], [[[1, 2, 0]]], [], [], []⟩ : ObjData).v =
      ((["v 1 2 3", "f 1/2"].map (vDelta false)).flatten) := by
  constructor
  · have h := readObj_corner_triples_and_order.1 "2/3" ["2", "3"] [2, 3]
      rfl rfl (by decide)
    simpa using h.1
  · have h := readObj_corner_triples_and_order.2 false ["v 1 2 3", "f 1/2"]
      ⟨[], [[1, 2, 3]], [], [], [], [[[1, 2, 0]]], [], [], []⟩ rfl
    exact h.1

/-- C8: a line whose first token is none of the known directives and is not
a comment raises an Unknown keyword error when ignore_unknown is false, and
leaves the state untouched when ignore_unknown is true. -/
theorem readObj_unknown_directive (st : ObjData) (line s0 : String)
    (rest : List String)
    (h : pyTokens line = s0 :: rest)
    (h1 : s0 ≠ "v") (h2 : s0 ≠ "vt") (h3 : s0 ≠ "vn") (h4 : s0 ≠ "vp")
    (h5 : s0 ≠ "f") (h6 : s0 ≠ "usemtl") (h7 : s0 ≠ "o") (h8 : s0 ≠ "s")
    (h9 : s0 ≠ "mtllib") (h10 : firstCharIs '#' s0 = false) :
    readObjLine false st line = Except.error ("Unknown keyword " ++ s0) ∧
    readObjLine true st line = Except.ok st := by
  constructor <;>
    simp [readObjLine, parseLine, h, h1, h2, h3, h4, h5, h6, h7, h8, h9, h10,
      applyAction]

/-- Witness for C8 on the line "vx 1 2". -/
theorem readObj_unknown_directive_witness :
    readObjLine false emptyObj "vx 1 2" = Except.error ("Unknown keyword " ++ "vx") ∧
    readObjLine true emptyObj "vx 1 2" = Except.ok emptyObj :=
  readObj_unknown_directive emptyObj "vx 1 2" "vx" ["1", "2"] rfl
    (by decide) (by decide) (by decide) (by decide) (by decide) (by decide)
    (by decide) (by decide) (by decide) rfl

/-- C10: a blank or whitespace-only line (one with no tokens) makes
read_obj raise at that line, because sq[0] is taken before any directive
test; hence read_obj succeeds only when every line has at least one
token. -/
theorem readObj_blank_line_raises :
    (∀ (b : Bool) (st : ObjData) (line : String),
        pyTokens line = [] →
        readObjLine b st line = Except.error "IndexError: list index out of range") ∧
    (∀ (b : Bool) (lines : List String) (res : ObjData),
        readObj b lines = Except.ok res →
        ∀ l ∈ lines, pyTokens l ≠ []) := by
  constructor
  · intro b st line h
    simp [readObjLine, parseLine, h]
  · intro b lines res h
    suffices hgo : ∀ (st : ObjData), readObjGo b st lines = Except.ok res →
        ∀ l ∈ lines, pyTokens l ≠ [] from hgo emptyObj h
    clear h
    induction lines with
    | nil => intro st _ l hl; simp at hl
    | cons x ls ih =>
      intro st hx l hl
      cases hs : readObjLine b st x with
      | error e => simp [readObjGo, hs] at hx
      | ok st1 =>
        simp only [readObjGo, hs] at hx
        rcases List.mem_cons.mp hl with rfl | hmem
        · intro htok
          have : readObjLine b st l = Except.error "IndexError: list index out of range" := by
            simp [readObjLine, parseLine, htok]
          rw [this] at hs
          exact Except.noConfusion hs
        · exact ih st1 hx l hmem

/-- Witness for C10: a whitespace-only line raises, and a successful file
has no token-free line. -/
theorem readObj_blank_line_raises_witness :
    readObjLine false emptyObj "   " = Except.error "IndexError: list index out of range" ∧
    pyTokens "v 1 2 3" ≠ [] :=
  ⟨readObj_blank_line_raises.1 false emptyObj "   " rfl,
   readObj_blank_line_raises.2 false ["v 1 2 3"]
     ⟨[], [[1, 2, 3]], [], [], [], [], [], [], []⟩ rfl "v 1 2 3" (by simp)⟩

/-! ## RastContext, src/utils3d/torch_/rasterization.py lines 17-31 -/

/-- A backend context of the external rasterization library
(nvdiffrast.torch.RasterizeGLContext or RasterizeCudaContext), carrying
the device it was built for. -/
inductive NvdContext where
  | gl (device : Option String)
  | cuda (device : Option String)
deriving DecidableEq

/-- RastContext.__init__ (lines 21-31): a pre-built context is stored as is
and returned at once with no backend check; otherwise the backend name
selects the context class, and any other name raises ValueError. -/
def rastContextInit (nvdCtx : Option NvdContext) (backend : String)
    (device : Option String) : Except String NvdContext :=
  match nvdCtx with
  | some c => Except.ok c
  | none =>
    if backend = "gl" then Except.ok (NvdContext.gl device)
    else if backend = "cuda" then Except.ok (NvdContext.cuda device)
    else Except.error ("Unknown backend: " ++ backend)

/-- C9: an unknown backend name with no pre-built context fails at
construction time; a pre-built context is stored with no backend check; the
two known names build the corresponding context. -/
theorem rastContext_backend_check (backend : String) (device : Option String)
    (hgl : backend ≠ "gl") (hcuda : backend ≠ "cuda") :
    rastContextInit none backend device =
      Except.error ("Unknown backend: " ++ backend) ∧
    (∀ c, rastContextInit (some c) backend device = Except.ok c) ∧
    rastContextInit none "gl" device = Except.ok (NvdContext.gl device) ∧
    rastContextInit none "cuda" device = Except.ok (NvdContext.cuda device) := by
  refine ⟨?_, fun c => rfl, rfl, rfl⟩
  simp [rastContextInit, hgl, hcuda]

/-- Witness for C9 with the unsupported backend name "metal". -/
theorem rastContext_backend_check_witness :
    rastContextInit none "metal" none =
      Except.error ("Unknown backend: " ++ "metal") ∧
    rastContextInit (some (NvdContext.gl none)) "metal" none =
      Except.ok (NvdContext.gl none) :=
  ⟨(rastContext_backend_check "metal" none (by decide) (by decide)).1,
   (rastContext_backend_check "metal" none (by decide) (by decide)).2.1
     (NvdContext.gl none)⟩

/-! ## rasterize_vertex_attr and warp_image_by_depth,
src/utils3d/torch_/rasterization.py lines 34-266

Tensor embedding: a (B, H, W) float tensor is a total function
Nat → Nat → Nat → ℚ (batch, row, column); a (B, H, W) bool tensor likewise
with Bool values; a (B, C, H, W) image is a list of channel grids; a
flattened (B, N, ...) vertex tensor is indexed by batch and vertex number.
Shape bookkeeping (the ndim asserts of lines 68-69 and 160 and the
spatial-size assert of line 168) has no content on total functions and is
not modelled. -/

/-- A (B, H, W) rational raster. -/
abbrev Grid := Nat → Nat → Nat → ℚ

/-- A (B, H, W) boolean raster. -/
abbrev BGrid := Nat → Nat → Nat → Bool

/-- A batched per-vertex 3D point tensor (B, N, 3). -/
abbrev Pts := Nat → Nat → ℚ × ℚ × ℚ

/-- A face index buffer. -/
abbrev Faces := List (List Nat)

/-- A 4x4 rational matrix. -/
abbrev Mat4 := Fin 4 → Fin 4 → ℚ

/-- A 3x3 rational matrix (camera intrinsics). -/
abbrev Mat3 := Fin 3 → Fin 3 → ℚ

/-- The all-zero raster, used as the out-of-range default for channel
lists. -/
def zeroGrid : Grid := fun _ _ _ => 0

/-- torch.eye(4). -/
def eye4 : Mat4 := fun i j => if i = j then 1 else 0

/-- Matrix product of two 4x4 matrices. -/
def mat4Mul (a b : Mat4) : Mat4 :=
  fun i j => Finset.univ.sum (fun k => a i k * b k j)

/-- Line 97: depth = (depth * 0.5 + 0.5) * (depth > 0).float()
+ (depth == 0).float(), applied to each raw clip-space z value of the
rasterized depth buffer. -/
def remapDepth (d : ℚ) : ℚ :=
  (d * (1 / 2) + 1 / 2) * (if 0 < d then 1 else 0) + (if d = 0 then 1 else 0)

/-- The external nvdiffrast calls made by rasterize_vertex_attr (lines
90-93): dr.rasterize (of which only the z channel of rast_out is consumed
downstream), dr.interpolate (attribute channels and their image-space
derivatives) and dr.antialias. -/
structure DrBackend where
  rasterizeZ : (Nat → Nat → Fin 4 → ℚ) → Faces → Nat → Nat → Grid
  interpolate : (Nat → Nat → List ℚ) → Faces → Option (List Nat) →
    List Grid × List Grid
  antialias : List Grid → (Nat → Nat → Fin 4 → ℚ) → Faces → List Grid

/-- rasterize_vertex_attr (lines 34-101): homogenize the vertices (lines
71-78), compose mvp = perspective @ view @ model (lines 80-84), transform
to clip space (line 86), call the rasterizer backend (lines 90-93), flip
rows back to top-down order (lines 94, 96, 99) and remap the depth (line
97).  vdim is vertices.shape[-1]. -/
def rasterizeVertexAttr (dr : DrBackend) (vdim : Nat)
    (vertices : Nat → Nat → Nat → ℚ) (faces : Faces)
    (attr : Nat → Nat → List ℚ) (width height : Nat)
    (model view perspective : Option Mat4) (antialiasing : Bool)
    (diffAttrs : Option (List Nat)) :
    Except String (List Grid × Grid × Option (List Grid)) :=
  let verts4? : Except String (Nat → Nat → Fin 4 → ℚ) :=
    if vdim = 2 then
      Except.ok (fun b n k =>
        if k.val < 2 then vertices b n k.val else if k.val = 3 then 1 else 0)
    else if vdim = 3 then
      Except.ok (fun b n k => if k.val < 3 then vertices b n k.val else 1)
    else if vdim = 4 then
      Except.ok (fun b n k => vertices b n k.val)
    else Except.error "Wrong shape of vertices"
  match verts4? with
  | Except.error e => Except.error e
  | Except.ok verts4 =>
    let mvp0 := match perspective with | some p => p | none => eye4
    let mvp1 := match view with | some v => mat4Mul mvp0 v | none => mvp0
    let mvp := match model with | some m => mat4Mul mvp1 m | none => mvp1
    let posClip : Nat → Nat → Fin 4 → ℚ :=
      fun b n r => Finset.univ.sum (fun c => mvp r c * verts4 b n c)
    let rastZ := dr.rasterizeZ posClip faces height width
    let inter := dr.interpolate attr faces diffAttrs
    let image1 := if antialiasing then dr.antialias inter.1 posClip faces
      else inter.1
    let image2 := image1.map (fun g => fun b i j => g b (height - 1 - i) j)
    let depth : Grid := fun b i j => remapDepth (rastZ b (height - 1 - i) j)
    match diffAttrs with
    | some _ =>
      Except.ok (image2, depth,
        some (inter.2.map (fun g => fun b i j => g b (height - 1 - i) j)))
    | none => Except.ok (image2, depth, none)

/-- torch.nn.functional.pad(x, [1, 1, 1, 1], mode=replicate) on each (H, W)
slice: one replicated pixel on each side (hD, wD are the unpadded height
and width). -/
def padReplicateGrid (hD wD : Nat) (g : Grid) : Grid :=
  fun b i j => g b (min (i - 1) (hD - 1)) (min (j - 1) (wD - 1))

/-- Lines 184-213, the depth tensor handed to transforms.unproject_cv:
with padding > 0 (line 193) the depth is replicate-padded and the mask is
not consulted; with padding = 0 and a mask (line 206) the depth of invalid
pixels is replaced by far via torch.where; otherwise the depth passes
through unchanged. -/
def depthForUnprojection (padding : Nat) (far : ℚ) (heightD widthD : Nat)
    (mask : Option BGrid) (depth : Grid) : Grid :=
  if 0 < padding then padReplicateGrid heightD widthD depth
  else
    match mask with
    | some m => fun b i j => if m b i j then depth b i j else far
    | none => depth

/-- Lines 216-219: the triangulation call chosen by batch size — adaptive
(mesh.triangulate with vertices=pts[0]) for batch size 1, fixed topology
(mesh.triangulate with only the backslash flag) otherwise. -/
inductive TriangulateCall where
  | adaptive (vertices : Nat → ℚ × ℚ × ℚ)
  | fixedTopology (backslash : Bool)

def selectTriangulation (batchSize : Nat) (pts : Pts) (backslash : Bool) :
    TriangulateCall :=
  if batchSize = 1 then TriangulateCall.adaptive (pts 0)
  else TriangulateCall.fixedTopology backslash

/-- Lines 252-256, the per-pixel validity rule: screen depth strictly below
1.0, and, when a source mask was carried, the rasterized mask channel
strictly above 0.9999. -/
def outputMaskPixel (screenDepth : ℚ) (rastMask : Option ℚ) : Bool :=
  decide (screenDepth < 1) &&
    (match rastMask with
     | some m => decide ((9999 : ℚ) / 10000 < m)
     | none => true)

/-- Lines 254-259, the helper channels stripped from the rasterized image:
the mask channel (last) when a mask was carried, then the two uv channels
when return_dr was set and an image was given. -/
def compositeChannels (maskGiven returnDr imageGiven : Bool)
    (rastImage : List Grid) : List Grid :=
  let cs := if maskGiven then rastImage.dropLast else rastImage
  if returnDr && imageGiven then cs.dropLast.dropLast else cs

/-- Lines 252-256 as a raster: the output mask, reading the rasterized mask
channel from the last channel of the rasterized image. -/
def compositeMask (maskGiven : Bool) (rastImage : List Grid)
    (screenDepth : Grid) : BGrid :=
  fun b i j =>
    outputMaskPixel (screenDepth b i j)
      (if maskGiven then some (rastImage.getLastD zeroGrid b i j) else none)

/-- Lines 252-262, the COMPOSITE stage of warp_image_by_depth: output image
(stripped channels times the mask), output depth (linearized screen depth
times the mask) and output mask.  linearize is
transforms.linearize_depth(-, near, far). -/
def warpComposite (maskGiven returnDr imageGiven : Bool) (linearize : ℚ → ℚ)
    (rastImage : List Grid) (screenDepth : Grid) :
    List Grid × Grid × BGrid :=
  ((compositeChannels maskGiven returnDr imageGiven rastImage).map
      (fun g => fun b i j =>
        g b i j *
          (if compositeMask maskGiven rastImage screenDepth b i j then 1 else 0)),
   fun b i j =>
     linearize (screenDepth b i j) *
       (if compositeMask maskGiven rastImage screenDepth b i j then 1 else 0),
   compositeMask maskGiven rastImage screenDepth)

/-- The collaborators warp_image_by_depth calls that live outside this
repository subset: the nvdiffrast backend and the transforms, utils and
mesh helper modules. -/
structure WarpExternals where
  dr : DrBackend
  extrinsicsToView : Mat4 → Mat4
  intrinsicsToPerspective : Mat3 → ℚ → ℚ → Mat4
  imageMesh : Nat → Nat → (Nat → ℚ × ℚ) × Faces
  unprojectCv : (Nat → ℚ × ℚ) → (Nat → Nat → ℚ) → Mat4 → Mat3 → Pts
  triangulate : Faces → TriangulateCall → Faces
  linearizeDepth : ℚ → ℚ → ℚ → ℚ

/-- warp_image_by_depth (lines 113-266).  batchSize, heightD, widthD are
depth.shape; width?/height? the optional output size; the remaining
arguments mirror the Python signature.  Returns (image, depth, mask,
optional uv derivatives); the only failure is the camera-parameter assert
of line 179. -/
def warpImageByDepth (ext : WarpExternals)
    (batchSize heightD widthD : Nat) (depth : Grid)
    (image : Option (List Grid)) (mask : Option BGrid)
    (width? height? : Option Nat)
    (extrinsicsSrc? extrinsicsTgt? : Option Mat4)
    (intrinsicsSrc? intrinsicsTgt? : Option Mat3)
    (near far : ℚ) (antialiasing backslash : Bool)
    (padding : Nat) (returnDr : Bool) :
    Except String (List Grid × Grid × BGrid × Option (List Grid)) :=
  let width := width?.getD widthD
  let height := height?.getD heightD
  let extrinsicsSrc := extrinsicsSrc?.getD eye4
  let iS := match intrinsicsSrc? with
    | none => intrinsicsTgt?
    | some s => some s
  let iT := match intrinsicsTgt? with
    | none => iS
    | some t => some t
  match iS, iT with
  | some intrinsicsSrc, some intrinsicsTgt =>
    let extrinsicsTgt := extrinsicsTgt?.getD eye4
    let viewTgt := ext.extrinsicsToView extrinsicsTgt
    let perspectiveTgt := ext.intrinsicsToPerspective intrinsicsTgt near far
    let depthU := depthForUnprojection padding far heightD widthD mask depth
    let imageP := if 0 < padding then
        image.map (List.map (padReplicateGrid heightD widthD))
      else image
    let flatW := if 0 < padding then widthD + 2 else widthD
    let uvf : (Nat → ℚ × ℚ) × (Nat → ℚ × ℚ) × Faces :=
      if 0 < padding then
        let mf := ext.imageMesh (width + 2) (height + 2)
        let uvScaled : Nat → ℚ × ℚ := fun n =>
          (((mf.1 n).1 - 1 / ((width : ℚ) + 2)) * (((width : ℚ) + 2) / (width : ℚ)),
           ((mf.1 n).2 - 1 / ((width : ℚ) + 2)) * (((width : ℚ) + 2) / (width : ℚ)))
        let uvShifted : Nat → ℚ × ℚ := fun n =>
          let i := n / (width + 2)
          let j := n % (width + 2)
          let y1 := if i = 0 then (uvScaled n).2 - (padding : ℚ) / (height : ℚ)
            else (uvScaled n).2
          let y2 := if i = height + 1 then y1 + (padding : ℚ) / (height : ℚ)
            else y1
          let x1 := if j = 0 then (uvScaled n).1 - (padding : ℚ) / (width : ℚ)
            else (uvScaled n).1
          let x2 := if j = width + 1 then x1 + (padding : ℚ) / (width : ℚ)
            else x1
          (x2, y2)
        (uvScaled, uvShifted, mf.2)
      else
        let mf := ext.imageMesh widthD heightD
        (mf.1, mf.1, mf.2)
    let pts := ext.unprojectCv uvf.2.1
      (fun b n => depthU b (n / flatW) (n % flatW)) extrinsicsSrc intrinsicsSrc
    let faces := ext.triangulate uvf.2.2
      (selectTriangulation batchSize pts backslash)
    let attrBase : Nat → Nat → List ℚ :=
      match imageP with
      | some img =>
        if returnDr then
          fun b n => img.map (fun g => g b (n / flatW) (n % flatW)) ++
            [(uvf.1 n).1, (uvf.1 n).2]
        else
          fun b n => img.map (fun g => g b (n / flatW) (n % flatW))
      | none => fun _ n => [(uvf.1 n).1, (uvf.1 n).2]
    let diffAttrs : Option (List Nat) :=
      match imageP with
      | some img => if returnDr then some [img.length, img.length + 1] else none
      | none => if returnDr then some [0, 1] else none
    let attr : Nat → Nat → List ℚ :=
      match mask with
      | some m => fun b n =>
          attrBase b n ++ [if m b (n / widthD) (n % widthD) then 1 else 0]
      | none => attrBase
    match rasterizeVertexAttr ext.dr 3
      (fun b n k =>
        if k = 0 then (pts b n).1
        else if k = 1 then (pts b n).2.1
        else if k = 2 then (pts b n).2.2 else 0)
      faces attr width height none (some viewTgt) (some perspectiveTgt)
      antialiasing diffAttrs with
    | Except.error e => Except.error e
    | Except.ok res =>
      let comp := warpComposite mask.isSome returnDr image.isSome
        (fun d => ext.linearizeDepth d near far) res.1 res.2.1
      Except.ok (comp.1, comp.2.1, comp.2.2, res.2.2)
  | _, _ =>
    Except.error "Make sure you have provided all the necessary camera parameters."

/-- C1 counterexample: the remap of line 97 sends a raw clip z of exactly 0
to 1, not to 0, so the clause sending every non-positive raw z to 0 fails
at the non-positive input 0. -/
theorem remapDepth_zero_counterexample :
    remapDepth 0 = 1 ∧ ¬ (0 : ℚ) < 0 ∧ remapDepth 0 ≠ 0 := by
  norm_num [remapDepth]

/-- C1 (amended): the depth values produced by rasterize_vertex_attr
satisfy: raw z exactly 0 (the miss sentinel) gives exactly 1; strictly
negative raw z gives exactly 0; positive raw z gives z/2 + 1/2; and for raw
clip z in [-1, 1] the output lies in [0, 1]. -/
theorem rasterize_depth_remap (d : ℚ) :
    (d = 0 → remapDepth d = 1) ∧
    (d < 0 → remapDepth d = 0) ∧
    (0 < d → remapDepth d = d * (1 / 2) + 1 / 2) ∧
    (-1 ≤ d → d ≤ 1 → 0 ≤ remapDepth d ∧ remapDepth d ≤ 1) := by
  unfold remapDepth
  refine ⟨?_, ?_, ?_, ?_⟩
  · rintro rfl; norm_num
  · intro h
    rw [if_neg (by linarith), if_neg (by linarith)]
    ring
  · intro h
    rw [if_pos h, if_neg (by linarith)]
    ring
  · intro h1 h2
    rcases lt_trichotomy d 0 with h | h | h
    · rw [if_neg (by linarith), if_neg (by linarith)]
      norm_num
    · subst h; norm_num
    · rw [if_pos h, if_neg (by linarith)]
      constructor <;> nlinarith

/-- Witness for C1 at raw z values 0, -1/2 and 1/2. -/
theorem rasterize_depth_remap_witness :
    remapDepth 0 = 1 ∧ remapDepth (-(1 / 2)) = 0 ∧
    remapDepth (1 / 2) = (1 / 2) * (1 / 2) + 1 / 2 ∧
    (0 ≤ remapDepth (1 / 2) ∧ remapDepth (1 / 2) ≤ 1) :=
  ⟨(rasterize_depth_remap 0).1 rfl,
   (rasterize_depth_remap (-(1 / 2))).2.1 (by norm_num),
   (rasterize_depth_remap (1 / 2)).2.2.1 (by norm_num),
   (rasterize_depth_remap (1 / 2)).2.2.2 (by norm_num) (by norm_num)⟩

/-- C2 counterexample: with padding = 1, a pixel marked invalid by the mask
keeps its own depth (here 5) in the tensor handed to unprojection, instead
of the far value 100 that the padding = 0 branch would substitute. -/
theorem warp_mask_far_padding_counterexample :
    depthForUnprojection 1 100 4 4 (some (fun _ _ _ => false))
      (fun _ _ _ => (5 : ℚ)) 0 1 1 = 5 ∧
    (5 : ℚ) ≠ 100 ∧
    depthForUnprojection 0 100 4 4 (some (fun _ _ _ => false))
      (fun _ _ _ => (5 : ℚ)) 0 1 1 = 100 := by
  refine ⟨rfl, by norm_num, rfl⟩

/-- C2 (amended): when padding = 0 and a mask is supplied, every lattice
pixel keeps its place and an invalid pixel's depth is replaced by far
before unprojection; when padding > 0 the mask is not applied — the
replicate-padded depth goes to unprojection unchanged. -/
theorem warp_mask_far_replacement (far : ℚ) (hD wD : Nat) (m : BGrid)
    (depth : Grid) (b i j p : Nat) :
    depthForUnprojection 0 far hD wD (some m) depth b i j =
      (if m b i j then depth b i j else far) ∧
    depthForUnprojection (p + 1) far hD wD (some m) depth b i j =
      depth b (min (i - 1) (hD - 1)) (min (j - 1) (wD - 1)) := by
  constructor
  · rfl
  · simp [depthForUnprojection, padReplicateGrid]

/-- C3: the output validity mask of warp_image_by_depth is true at a pixel
iff the screen depth there is strictly below 1.0 and, when a source mask
was carried, the rasterized mask channel (the last rasterized channel) is
strictly above 0.9999; a rasterized mask value of exactly 0.9999 is
invalid, 0.99991 valid. -/
theorem warp_output_mask_rule :
    (∀ (d m : ℚ),
        (outputMaskPixel d (some m) = true ↔ d < 1 ∧ (9999 : ℚ) / 10000 < m) ∧
        (outputMaskPixel d none = true ↔ d < 1)) ∧
    outputMaskPixel (1 / 2) (some ((9999 : ℚ) / 10000)) = false ∧
    outputMaskPixel (1 / 2) (some ((99991 : ℚ) / 100000)) = true ∧
    (∀ (mg rd ig : Bool) (lin : ℚ → ℚ) (ri : List Grid) (sd : Grid)
        (b i j : Nat),
        (warpComposite mg rd ig lin ri sd).2.2 b i j =
          outputMaskPixel (sd b i j)
            (if mg then some (ri.getLastD zeroGrid b i j) else none)) := by
  refine ⟨?_, ?_, ?_, fun mg rd ig lin ri sd b i j => rfl⟩
  · intro d m
    constructor <;> simp [outputMaskPixel]
  · simp [outputMaskPixel]
  · simp [outputMaskPixel]
    norm_num

/-- C4: at every pixel where the output mask is false, the output linear
depth is exactly 0 and every channel of the output image is exactly 0; and
the helper channels (mask; uv when derivatives of a given image were
requested) are stripped from the output image. -/
theorem warp_composite_zeroing (mg rd ig : Bool) (lin : ℚ → ℚ)
    (ri : List Grid) (sd : Grid) (b i j : Nat)
    (h : (warpComposite mg rd ig lin ri sd).2.2 b i j = false) :
    (warpComposite mg rd ig lin ri sd).2.1 b i j = 0 ∧
    (∀ g ∈ (warpComposite mg rd ig lin ri sd).1, g b i j = 0) ∧
    (warpComposite mg rd ig lin ri sd).1.length =
      (if rd && ig then (if mg then ri.length - 1 else ri.length) - 2
       else (if mg then ri.length - 1 else ri.length)) := by
  have hm : compositeMask mg ri sd b i j = false := h
  refine ⟨?_, ?_, ?_⟩
  · show lin (sd b i j) *
      (if compositeMask mg ri sd b i j then (1 : ℚ) else 0) = 0
    rw [hm]
    simp
  · intro g hg
    simp only [warpComposite, List.mem_map] at hg
    obtain ⟨g0, hg0, hge⟩ := hg
    subst hge
    show g0 b i j *
      (if compositeMask mg ri sd b i j then (1 : ℚ) else 0) = 0
    rw [hm]
    simp
  · simp only [warpComposite, List.length_map]
    unfold compositeChannels
    rcases mg <;> rcases rd <;> rcases ig <;>
      simp [List.length_dropLast] <;> omega

/-- Witness for C4 on a one-channel raster whose screen depth 2 makes every
pixel invalid. -/
theorem warp_composite_zeroing_witness :
    (warpComposite true false false (fun d => d)
      [fun _ _ _ => (3 : ℚ)] (fun _ _ _ => 2)).2.1 0 0 0 = 0 ∧
    (warpComposite true false false (fun d => d)
      [fun _ _ _ => (3 : ℚ)] (fun _ _ _ => 2)).1.length = 0 := by
  have h := warp_composite_zeroing true false false (fun d => d)
    [fun _ _ _ => (3 : ℚ)] (fun _ _ _ => 2) 0 0 0
    (by simp [warpComposite, compositeMask, outputMaskPixel, zeroGrid])
  exact ⟨h.1, by simpa using h.2.2⟩

/-- C5: warp_image_by_depth picks its triangulation call purely by batch
size — batch size 1 gives the depth-aware call carrying the unprojected
vertices of the single sample, any batch size of at least 2 gives the
fixed-topology call carrying only the backslash flag. -/
theorem warp_triangulation_mode (pts : Pts) (bs : Bool) (k : Nat) :
    selectTriangulation 1 pts bs = TriangulateCall.adaptive (pts 0) ∧
    selectTriangulation (k + 2) pts bs = TriangulateCall.fixedTopology bs := by
  constructor
  · rfl
  · simp [selectTriangulation]

/-- C6: if exactly one of the two intrinsics is supplied,
warp_image_by_depth behaves as if the missing one were the supplied one;
if neither is supplied, it fails with the camera-parameter message, and it
does so for every choice of external collaborators, hence before any
unprojection, triangulation or rasterization. -/
theorem warp_intrinsics_defaulting (ext : WarpExternals)
    (bsz hD wD : Nat) (depth : Grid) (image : Option (List Grid))
    (mask : Option BGrid) (w? h? : Option Nat)
    (exS exT : Option Mat4) (K : Mat3) (near far : ℚ) (aa bsl : Bool)
    (pad : Nat) (rDr : Bool) :
    warpImageByDepth ext bsz hD wD depth image mask w? h? exS exT
        none none near far aa bsl pad rDr =
      Except.error "Make sure you have provided all the necessary camera parameters." ∧
    warpImageByDepth ext bsz hD wD depth image mask w? h? exS exT
        (some K) none near far aa bsl pad rDr =
      warpImageByDepth ext bsz hD wD depth image mask w? h? exS exT
        (some K) (some K) near far aa bsl pad rDr ∧
    warpImageByDepth ext bsz hD wD depth image mask w? h? exS exT
        none (some K) near far aa bsl pad rDr =
      warpImageByDepth ext bsz hD wD depth image mask w? h? exS exT
        (some K) (some K) near far aa bsl pad rDr :=
  ⟨rfl, rfl, rfl⟩
